import Mathlib

/-!
# Verification of the python-runner execution lifecycle

A shallow embedding of the two executors of the `piece-python-runner`
repository:

* the host executor `runPythonCode` (file `run-python-code.ts`; the repository
  carries two variants of it, embedded here as `runPythonCode` for the variant
  that checks pip availability and `runPythonCodeB` for the variant that
  warns and continues on a failed install), and
* the container executor `runPythonCodeSandboxed`
  (`src/actions/run-python-code-sandboxed.ts`).

External effects (child processes, the Docker engine, the filesystem) are
modelled by oracle records (`HostEnv`, `ContainerEnv`) holding the outcome of
each external call; JavaScript exceptions are modelled with `Except JsError`.
`JSON.parse` is an external library routine and is passed in as a parameter
`jsonParse : String → Option Json` (`none` models a parse exception).
-/

/-- The observable payload of a resolved `execAsync` call: captured stdout
and stderr of the child process. -/
structure ExecOut where
  stdout : String
  stderr : String
deriving DecidableEq

/-- A JavaScript exception value as the executors observe it: a `message`,
and the extra fields Node attaches to `exec` errors (`stdout`, `stderr`,
`code`) plus the `statusCode` dockerode attaches to engine errors.  A `none`
field models an `undefined` property. -/
structure JsError where
  message : String
  stdout : Option String := none
  stderr : Option String := none
  code : Option Int := none
  statusCode : Option Int := none
deriving DecidableEq

/-- Returns `true` iff an `Except` value is `.ok`; models "the awaited promise
resolved". -/
def exOk {ε α : Type} : Except ε α → Bool
  | .ok _ => true
  | .error _ => false

/-- JavaScript `String.prototype.trim`: strip leading and trailing
whitespace. -/
def jsTrim (s : String) : String :=
  ⟨((s.data.dropWhile Char.isWhitespace).reverse.dropWhile
      Char.isWhitespace).reverse⟩

/-- JavaScript `String.prototype.split('\n')` on the character list: split at
every newline, keeping empty pieces. -/
def jsSplitLinesList : List Char → List (List Char)
  | [] => [[]]
  | c :: rest =>
    let r := jsSplitLinesList rest
    if c = '\n' then [] :: r
    else (c :: r.headD []) :: r.tail

/-- JavaScript `String.prototype.split('\n')`. -/
def jsSplitNl (s : String) : List String :=
  (jsSplitLinesList s.data).map fun l => ⟨l⟩

/-- JavaScript `Array.prototype.join(sep)`. -/
def jsJoin (sep : String) : List String → String
  | [] => ""
  | [x] => x
  | x :: xs => x ++ sep ++ jsJoin sep xs

/-- Whether `pat` is a prefix of the character list. -/
def isPrefixCharList : List Char → List Char → Bool
  | [], _ => true
  | _ :: _, [] => false
  | p :: ps, c :: cs => p = c && isPrefixCharList ps cs

/-- Whether `pat` occurs somewhere in the character list. -/
def containsCharList (pat : List Char) : List Char → Bool
  | [] => isPrefixCharList pat []
  | c :: cs => isPrefixCharList pat (c :: cs) || containsCharList pat cs

/-- JavaScript `String.prototype.includes`: substring test. -/
def jsIncludes (s pat : String) : Bool :=
  containsCharList pat.data s.data

/-- A JSON value, the possible results of the external `JSON.parse`. -/
inductive Json where
  | null
  | bool (b : Bool)
  | num (n : Int)
  | str (s : String)
  | arr (elems : List Json)
  | obj (members : List (String × Json))

/-- The `output` field of a result: either a decoded JSON value or the raw
trimmed stdout text. -/
inductive OutputVal where
  | json (j : Json)
  | text (s : String)

/-- The shared output-normalisation step of both executors
(`JSON.parse(stdout.trim())` with a fallback to `stdout.trim()`):
`let parsedOutput; try { parsedOutput = JSON.parse(stdout.trim()); }
catch { parsedOutput = stdout.trim(); }`. -/
def parseOutput (jsonParse : String → Option Json) (raw : String) : OutputVal :=
  match jsonParse (jsTrim raw) with
  | some j => OutputVal.json j
  | none => OutputVal.text (jsTrim raw)

/-- JavaScript `(timeout || 30)` on an optional number: `undefined` and `0`
are falsy and give the default; every other value (negative and fractional
ones included) is kept. -/
def jsOrDefault (t : Option Int) (d : Int) : Int :=
  match t with
  | none => d
  | some v => if v = 0 then d else v

/-- The wall-clock execution bound in milliseconds, `(timeout || 30) * 1000`,
identical in both executors. -/
def effectiveTimeoutMs (t : Option Int) : Int :=
  jsOrDefault t 30 * 1000

/-- The test `if (requirements && requirements.trim())`: the requirements input is
present and not blank. -/
def hasRequirements : Option String → Bool
  | none => false
  | some r => jsTrim r != ""

/-- The input surface of the host action `run-python-code`. -/
structure HostRequest where
  code : String
  requirements : Option String
  timeout : Option Int
  pythonVersion : String
  captureOutput : Bool

/-- Outcomes of the external calls the host executor makes, one field per
call site.  Each `Except` is the resolution of the corresponding awaited
promise (or thrown filesystem error). -/
structure HostEnv where
  isDocker : Bool
  mkdirOutcome : Except JsError Unit
  writeScriptOutcome : Except JsError Unit
  pythonCheck : Except JsError ExecOut
  venvHelp : Except JsError ExecOut
  venvCreate : Except JsError Unit
  venvCreateCopies : Except JsError Unit
  platformWin32 : Bool
  pipCheck : Except JsError ExecOut
  pipInstall : Except JsError ExecOut
  scriptExec : Except JsError ExecOut
  cleanup : Except JsError Unit

/-- The virtual-environment escalation chain of variant A: primary creation
(python check, `-m venv --help` check, `-m venv`), then `-m venv --copies`,
each failure caught; `useVenv` survives iff some strategy succeeded and the
host is not itself a Docker container. -/
def useVenvA (env : HostEnv) : Bool :=
  !env.isDocker &&
    ((exOk env.pythonCheck && exOk env.venvHelp && exOk env.venvCreate) ||
      exOk env.venvCreateCopies)

/-- Filesystem / process actions the host run performs, for tracking which
side effects happened on a given path. -/
inductive HostOp where
  | mkdirTemp
  | writeScript
  | writeRequirements
  | pipInstallRun
  | runScript
  | removeTempDirRecursive
deriving DecidableEq

/-- The error thrown by the `.catch` wrapper of the pip availability check:
`pip is not installed. Please ensure pip is available ...`. -/
def pipCheckThrown (pythonVersion : String) : JsError :=
  { message := "pip is not installed. Please ensure pip is available in your Python environment. For Debian/Ubuntu: apt-get install python3-pip. For other systems, please install pip for " ++ pythonVersion ++ "." }

/-- The user-facing error the pip `catch` block substitutes when the failure
message indicates a missing pip. -/
def pipMissingError : JsError :=
  { message := "Cannot install Python packages: pip is not available. To use packages, please ensure pip is installed in your environment. For the sandboxed version, use the \"Run Python Code (Sandboxed)\" action instead." }

/-- The `catch (pipError)` block of variant A: failures whose message names a
missing pip are replaced by `pipMissingError`, all others are rethrown
unchanged. -/
def pipCatchWrap (pe : JsError) : JsError :=
  if jsIncludes pe.message "No module named pip" ||
      jsIncludes pe.message "pip is not installed" then
    pipMissingError
  else pe

/-- The requirements-installation stage of variant A: check pip
(`pip --version`), converting a rejection into the descriptive thrown error;
then `pip install -r requirements.txt`, with the `catch (pipError)`
translation. -/
def pipStageA (req : HostRequest) (env : HostEnv) : Except JsError Unit :=
  match env.pipCheck with
  | .error _ => .error (pipCatchWrap (pipCheckThrown req.pythonVersion))
  | .ok _ =>
    match env.pipInstall with
    | .ok _ => .ok ()
    | .error pe => .error (pipCatchWrap pe)

/-- The pip stage is only entered when requirements were declared. -/
def pipGateA (req : HostRequest) (env : HostEnv) : Except JsError Unit :=
  if hasRequirements req.requirements then pipStageA req env else .ok ()

/-- Side effects of the pip stage of variant A: the requirements file is
written first; the install runs only when the pip check resolved. -/
def pipOpsA (req : HostRequest) (env : HostEnv) : List HostOp :=
  if hasRequirements req.requirements then
    HostOp.writeRequirements ::
      (match env.pipCheck with
       | .ok _ => [HostOp.pipInstallRun]
       | .error _ => [])
  else []

/-- The body of variant A's `try` block: create the temp directory, write the
script, (venv chain — which catches its own failures), install requirements,
then execute the script.  Returns the script's `execAsync` resolution or the
first thrown error, together with the side effects performed. -/
def hostBodyA (req : HostRequest) (env : HostEnv) :
    Except JsError ExecOut × List HostOp :=
  match env.mkdirOutcome with
  | .error e => (.error e, [HostOp.mkdirTemp])
  | .ok _ =>
    match env.writeScriptOutcome with
    | .error e => (.error e, [HostOp.mkdirTemp, HostOp.writeScript])
    | .ok _ =>
      match pipGateA req env with
      | .error e =>
        (.error e, HostOp.mkdirTemp :: HostOp.writeScript :: pipOpsA req env)
      | .ok _ =>
        (env.scriptExec,
          HostOp.mkdirTemp :: HostOp.writeScript ::
            (pipOpsA req env ++ [HostOp.runScript]))

/-- The execution result shape returned by the host action.  `none` models a
field set to `undefined` / left absent. -/
structure HostResult where
  success : Bool
  output : Option OutputVal := none
  stdout : Option String := none
  stderr : Option String := none
  error : Option String := none
  code : Option Int := none
  executionTime : String

/-- The success envelope of the host action: parsed output, stdout/stderr
included only when `captureOutput` is set. -/
def successEnvelope (jsonParse : String → Option Json) (req : HostRequest)
    (out : ExecOut) (now : String) : HostResult :=
  { success := true
    output := some (parseOutput jsonParse out.stdout)
    stdout := if req.captureOutput then some out.stdout else none
    stderr := if req.captureOutput then some out.stderr else none
    executionTime := now }

/-- The `catch` envelope of the host action:
`{ success: false, error: error.message, stdout: error.stdout || '',
stderr: error.stderr || '', code: error.code, executionTime: ... }`. -/
def errorEnvelope (e : JsError) (now : String) : HostResult :=
  { success := false
    stdout := some (e.stdout.getD "")
    stderr := some (e.stderr.getD "")
    error := some e.message
    code := e.code
    executionTime := now }

/-- Everything a host run produces: the returned result, the side effects
performed (the `finally` block appends the recursive temp-dir removal on
every path), and whether that cleanup itself succeeded (its failure is only
logged). -/
structure HostRunOutput where
  result : HostResult
  ops : List HostOp
  cleanupSucceeded : Bool

/-- Variant A of the host executor `runPythonCode.run`: `try` body, `catch`
converting any thrown error into a failure envelope, `finally` always
attempting recursive deletion of the temp directory. -/
def runPythonCode (jsonParse : String → Option Json) (req : HostRequest)
    (env : HostEnv) (now : String) : HostRunOutput :=
  let body := hostBodyA req env
  { result :=
      match body.1 with
      | .ok out => successEnvelope jsonParse req out now
      | .error e => errorEnvelope e now
    ops := body.2 ++ [HostOp.removeTempDirRecursive]
    cleanupSucceeded := exOk env.cleanup }

/-- The body of variant B's `try` block: temp dir, script file, unconditional
venv creation (a failure here is thrown), then `pip install` whose failure is
only logged (`console.warn`), then script execution. -/
def hostBodyB (req : HostRequest) (env : HostEnv) :
    Except JsError ExecOut × List HostOp :=
  match env.mkdirOutcome with
  | .error e => (.error e, [HostOp.mkdirTemp])
  | .ok _ =>
    match env.writeScriptOutcome with
    | .error e => (.error e, [HostOp.mkdirTemp, HostOp.writeScript])
    | .ok _ =>
      match env.venvCreate with
      | .error e => (.error e, [HostOp.mkdirTemp, HostOp.writeScript])
      | .ok _ =>
        (env.scriptExec,
          HostOp.mkdirTemp :: HostOp.writeScript ::
            ((if hasRequirements req.requirements then
                [HostOp.writeRequirements, HostOp.pipInstallRun]
              else []) ++ [HostOp.runScript]))

/-- Variant B of the host executor (the warn-and-continue variant): same
envelopes and `finally` cleanup as variant A, but a failed
`pip install` never aborts the run. -/
def runPythonCodeB (jsonParse : String → Option Json) (req : HostRequest)
    (env : HostEnv) (now : String) : HostRunOutput :=
  let body := hostBodyB req env
  { result :=
      match body.1 with
      | .ok out => successEnvelope jsonParse req out now
      | .error e => errorEnvelope e now
    ops := body.2 ++ [HostOp.removeTempDirRecursive]
    cleanupSucceeded := exOk env.cleanup }

/-- The `execAsync` options of the script-execution call of the host path:
`{ timeout: (timeout || 30) * 1000, maxBuffer: 10 * 1024 * 1024 }`. -/
structure HostExecOptions where
  timeoutMs : Int
  maxBuffer : Nat

/-- The options the host executor passes to the script `execAsync`. -/
def execOptionsA (req : HostRequest) : HostExecOptions :=
  { timeoutMs := effectiveTimeoutMs req.timeout
    maxBuffer := 10 * 1024 * 1024 }

/-- A byte of the user code (the UTF-8 bytes `Buffer.from(code)` yields). -/
abbrev Byte := Fin 256

/-- One output symbol of the base64 encoder: a six-bit group or the `=`
padding. -/
inductive B64Sym where
  | sextet (v : Fin 64)
  | pad
deriving DecidableEq

/-- Standard base64 encoding of a byte list, three bytes to four symbols,
zero-padding the last group and marking missing bytes with `=`. -/
def b64EncodeBytes : List Byte → List B64Sym
  | a :: b :: c :: rest =>
    let n := a.val * 65536 + b.val * 256 + c.val
    B64Sym.sextet ⟨n / 262144 % 64, by omega⟩ ::
      B64Sym.sextet ⟨n / 4096 % 64, by omega⟩ ::
      B64Sym.sextet ⟨n / 64 % 64, by omega⟩ ::
      B64Sym.sextet ⟨n % 64, by omega⟩ :: b64EncodeBytes rest
  | [a, b] =>
    let n := a.val * 65536 + b.val * 256
    [B64Sym.sextet ⟨n / 262144 % 64, by omega⟩,
      B64Sym.sextet ⟨n / 4096 % 64, by omega⟩,
      B64Sym.sextet ⟨n / 64 % 64, by omega⟩, B64Sym.pad]
  | [a] =>
    let n := a.val * 65536
    [B64Sym.sextet ⟨n / 262144 % 64, by omega⟩,
      B64Sym.sextet ⟨n / 4096 % 64, by omega⟩, B64Sym.pad, B64Sym.pad]
  | [] => []

/-- Standard base64 decoding (as the container's `base64 -d` performs on the
transported text): four symbols to three, two or one bytes, `none` on a
malformed stream. -/
def b64DecodeSyms : List B64Sym → Option (List Byte)
  | [] => some []
  | [B64Sym.sextet s0, B64Sym.sextet s1, B64Sym.pad, B64Sym.pad] =>
    some [⟨(s0.val * 4 + s1.val / 16) % 256, by omega⟩]
  | [B64Sym.sextet s0, B64Sym.sextet s1, B64Sym.sextet s2, B64Sym.pad] =>
    some [⟨(s0.val * 4 + s1.val / 16) % 256, by omega⟩,
      ⟨(s1.val % 16 * 16 + s2.val / 4) % 256, by omega⟩]
  | B64Sym.sextet s0 :: B64Sym.sextet s1 :: B64Sym.sextet s2 ::
      B64Sym.sextet s3 :: rest =>
    match b64DecodeSyms rest with
    | none => none
    | some tail =>
      let n := s0.val * 262144 + s1.val * 4096 + s2.val * 64 + s3.val
      some (⟨n / 65536 % 256, by omega⟩ :: ⟨n / 256 % 256, by omega⟩ ::
        ⟨n % 256, by omega⟩ :: tail)
  | _ => none

/-- The base64 alphabet in output order. -/
def b64Chars : List Char :=
  ['A', 'B', 'C', 'D', 'E', 'F', 'G', 'H', 'I', 'J', 'K', 'L', 'M',
   'N', 'O', 'P', 'Q', 'R', 'S', 'T', 'U', 'V', 'W', 'X', 'Y', 'Z',
   'a', 'b', 'c', 'd', 'e', 'f', 'g', 'h', 'i', 'j', 'k', 'l', 'm',
   'n', 'o', 'p', 'q', 'r', 's', 't', 'u', 'v', 'w', 'x', 'y', 'z',
   '0', '1', '2', '3', '4', '5', '6', '7', '8', '9', '+', '/']

/-- The character a base64 symbol is written as. -/
def b64SymChar : B64Sym → Char
  | B64Sym.sextet v => b64Chars.getD v.val 'A'
  | B64Sym.pad => '='

/-- The base64 text of a symbol list. -/
def b64String (syms : List B64Sym) : String :=
  ⟨syms.map b64SymChar⟩

/-- The base64 text of the user code,
`const encodedCode = Buffer.from(code).toString('base64')`. -/
def encodedCode (code : List Byte) : String :=
  b64String (b64EncodeBytes code)

/-- Shell metacharacters that could change the structure of the generated
command if they occurred in interpolated text. -/
def shellMetaChars : List Char :=
  ['\'', '"', '$', '\\', '`', ';', '&', '|', '>', '<', ' ', '\n']

/-- The input surface of the container action `run-python-code-sandboxed`;
the code is carried as its UTF-8 bytes, which is what
`Buffer.from(code)` encodes. -/
structure ContainerRequest where
  code : List Byte
  requirements : Option String
  timeout : Option Int

/-- The fixed base image of the container path. -/
def imageName : String := "python:slim"

/-- The pipeline `requirements.trim().split('\n').filter((r) => r.trim()).join(' ')`:
the raw requirements text, trimmed as a whole, split into lines, blank lines
dropped, joined with single spaces. -/
def requirementsList (requirements : String) : String :=
  jsJoin " "
    ((jsSplitNl (jsTrim requirements)).filter (fun r => jsTrim r != ""))

/-- The shell script of the requirements branch, with the joined
requirements list and the base64 code text spliced into the template. -/
def setupScriptWithReqs (reqsList encoded : String) : String :=
  "\n# Create a non-root user (Debian/Ubuntu syntax)\nuseradd -m -d /home/pyuser -s /bin/bash pyuser 2>/dev/null || true\n\n# First ensure pip is installed (suppress output)\npython3 -m ensurepip --upgrade >/dev/null 2>&1 || true\n\n# Install packages as root (suppress all output)\npython3 -m pip install --quiet --no-cache-dir --root-user-action=ignore " ++
    reqsList ++
    " >/dev/null 2>&1\n\n# Switch to non-root user and run the Python code\nsu - pyuser -c \"\ncd /home/pyuser\nexport PATH=/usr/local/bin:/usr/bin:/bin:/home/pyuser/.local/bin:$PATH\nexport PYTHONPATH=/usr/local/lib/python3.13/site-packages:/usr/local/lib/python3.12/site-packages:/usr/local/lib/python3.11/site-packages:/usr/local/lib/python3.10/site-packages:$PYTHONPATH\necho '" ++
    encoded ++ "' | base64 -d | python3\n\"\n"

/-- The shell script of the no-requirements branch. -/
def setupScriptNoReqs (encoded : String) : String :=
  "\n# Create a non-root user (Debian/Ubuntu syntax)\nuseradd -m -d /home/pyuser -s /bin/bash pyuser 2>/dev/null || true\n\n# Switch to non-root user and run the Python code\nsu - pyuser -c \"\nexport PATH=/usr/local/bin:/usr/bin:/bin:/home/pyuser/.local/bin:$PATH\necho '" ++
    encoded ++ "' | base64 -d | python3\n\"\n"

/-- The `Cmd` array handed to `createContainer`: both branches run
`sh -c` on the respective setup script. -/
def containerCmd (requirements : Option String) (code : List Byte) :
    List String :=
  if hasRequirements requirements then
    ["sh", "-c",
      setupScriptWithReqs (requirementsList (requirements.getD ""))
        (encodedCode code)]
  else
    ["sh", "-c", setupScriptNoReqs (encodedCode code)]

/-- The identity a step of the generated script runs under. -/
inductive RunAs where
  | root
  | pyuser
deriving DecidableEq

/-- The individual steps of the generated setup script. -/
inductive ContainerStep where
  | useraddPyuser
  | ensurePip
  | pipInstallReqs (reqsList : String)
  | cdHome
  | exportPath
  | exportPythonPath
  | runUserCode (encoded : String)
deriving DecidableEq

/-- The generated script as a structured step list, each step tagged with the
identity it executes under: everything before `su - pyuser -c "..."` runs as
the container's root, everything inside it as `pyuser`. -/
def containerScriptSteps (requirements : Option String) (code : List Byte) :
    List (RunAs × ContainerStep) :=
  if hasRequirements requirements then
    [(RunAs.root, ContainerStep.useraddPyuser),
     (RunAs.root, ContainerStep.ensurePip),
     (RunAs.root,
       ContainerStep.pipInstallReqs (requirementsList (requirements.getD ""))),
     (RunAs.pyuser, ContainerStep.cdHome),
     (RunAs.pyuser, ContainerStep.exportPath),
     (RunAs.pyuser, ContainerStep.exportPythonPath),
     (RunAs.pyuser, ContainerStep.runUserCode (encodedCode code))]
  else
    [(RunAs.root, ContainerStep.useraddPyuser),
     (RunAs.pyuser, ContainerStep.exportPath),
     (RunAs.pyuser, ContainerStep.runUserCode (encodedCode code))]

/-- The command line a script step renders to. -/
def renderStep : ContainerStep → String
  | ContainerStep.useraddPyuser =>
    "useradd -m -d /home/pyuser -s /bin/bash pyuser 2>/dev/null || true"
  | ContainerStep.ensurePip =>
    "python3 -m ensurepip --upgrade >/dev/null 2>&1 || true"
  | ContainerStep.pipInstallReqs r =>
    "python3 -m pip install --quiet --no-cache-dir --root-user-action=ignore " ++
      r ++ " >/dev/null 2>&1"
  | ContainerStep.cdHome => "cd /home/pyuser"
  | ContainerStep.exportPath =>
    "export PATH=/usr/local/bin:/usr/bin:/bin:/home/pyuser/.local/bin:$PATH"
  | ContainerStep.exportPythonPath =>
    "export PYTHONPATH=/usr/local/lib/python3.13/site-packages:/usr/local/lib/python3.12/site-packages:/usr/local/lib/python3.11/site-packages:/usr/local/lib/python3.10/site-packages:$PYTHONPATH"
  | ContainerStep.runUserCode e => "echo '" ++ e ++ "' | base64 -d | python3"

/-- The comment line the template places above each root step. -/
def renderRootStep : ContainerStep → String
  | ContainerStep.useraddPyuser =>
    "# Create a non-root user (Debian/Ubuntu syntax)\n" ++
      renderStep ContainerStep.useraddPyuser
  | ContainerStep.ensurePip =>
    "# First ensure pip is installed (suppress output)\n" ++
      renderStep ContainerStep.ensurePip
  | ContainerStep.pipInstallReqs r =>
    "# Install packages as root (suppress all output)\n" ++
      renderStep (ContainerStep.pipInstallReqs r)
  | st => renderStep st

/-- Rendering a tagged step list back into the script text: the root-tagged
steps appear as top-level commands, the pyuser-tagged ones inside the quoted
`su - pyuser -c` block. -/
def renderScript (steps : List (RunAs × ContainerStep)) : String :=
  "\n" ++
    jsJoin "\n\n"
      (((steps.filter (fun p => p.1 = RunAs.root)).map Prod.snd).map
        renderRootStep) ++
    "\n\n# Switch to non-root user and run the Python code\nsu - pyuser -c \"\n" ++
    jsJoin "\n"
      (((steps.filter (fun p => p.1 = RunAs.pyuser)).map Prod.snd).map
        renderStep) ++
    "\n\"\n"

/-- The `HostConfig` of the created container. -/
structure DockerHostConfig where
  AutoRemove : Bool
  Memory : Nat
  CpuQuota : Nat
deriving DecidableEq

/-- The options object passed to `docker.createContainer`. -/
structure DockerCreateOptions where
  Image : String
  Cmd : List String
  WorkingDir : String
  HostConfig : DockerHostConfig
  AttachStdout : Bool
  AttachStderr : Bool

/-- The container-creation options of `runPythonCodeSandboxed.run`:
auto-removal on exit, a 512 MiB memory ceiling and a 50% CPU quota. -/
def containerCreateOptions (requirements : Option String) (code : List Byte) :
    DockerCreateOptions :=
  { Image := imageName
    Cmd := containerCmd requirements code
    WorkingDir := "/home/pyuser"
    HostConfig := { AutoRemove := true, Memory := 512 * 1024 * 1024, CpuQuota := 50000 }
    AttachStdout := true
    AttachStderr := true }

/-- Outcomes of the container path's external calls.  `stdoutCaptured` and
`stderrCaptured` are the demultiplexed stream contents accumulated before the
container stopped; `timedOut` says the execution timer fired before
`container.wait()` resolved. -/
structure ContainerEnv where
  imageInspect : Except JsError Unit
  imagePull : Except JsError Unit
  createContainer : Except JsError Unit
  attach : Except JsError Unit
  startContainer : Except JsError Unit
  stdoutCaptured : String
  stderrCaptured : String
  timedOut : Bool
  killOutcome : Except JsError Unit
  waitOutcome : Except JsError Int

/-- All stages up to and including `container.start()` resolved, so the
execution timer was armed. -/
def containerStagesOk (cenv : ContainerEnv) : Bool :=
  (exOk cenv.imageInspect || exOk cenv.imagePull) &&
    exOk cenv.createContainer && exOk cenv.attach && exOk cenv.startContainer

/-- The result shape of the container action; `stdout` and `stderr` are plain
fields, always present. -/
structure ContainerResult where
  success : Bool
  output : OutputVal
  stdout : String
  stderr : String
  executionTime : String

/-- The body of the container action's `try` block: ensure the image (inspect,
else pull, a pull failure thrown), create the container, attach, start, then
wait — the exit status `container.wait()` resolves with is never examined,
and the timer only kills the container (a kill failure is swallowed), so a
resolved wait always produces a `success: true` envelope with the captured
output. -/
def containerTryBody (jsonParse : String → Option Json)
    (creq : ContainerRequest) (cenv : ContainerEnv) (now : String) :
    Except JsError ContainerResult :=
  match (match cenv.imageInspect with
         | .ok _ => Except.ok ()
         | .error _ => cenv.imagePull) with
  | .error pullErr => .error pullErr
  | .ok _ =>
    let _opts := containerCreateOptions creq.requirements creq.code
    match cenv.createContainer with
    | .error e => .error e
    | .ok _ =>
      match cenv.attach with
      | .error e => .error e
      | .ok _ =>
        match cenv.startContainer with
        | .error e => .error e
        | .ok _ =>
          match cenv.waitOutcome with
          | .error e => .error e
          | .ok _status =>
            .ok { success := true
                  output := parseOutput jsonParse cenv.stdoutCaptured
                  stdout := cenv.stdoutCaptured
                  stderr := cenv.stderrCaptured
                  executionTime := now }

/-- The message of the rebuilt socket-connectivity error. -/
def dockerSocketError : JsError :=
  { message := "Docker socket not found. Please ensure Docker is running and the socket is mounted with -v /var/run/docker.sock:/var/run/docker.sock" }

/-- The message of the rebuilt image-not-found error. -/
def dockerImageError : JsError :=
  { message := "Docker image " ++ imageName ++ " not found and could not be pulled. Please check your internet connection." }

/-- The `catch (error)` block of the container action: a `connect ENOENT`
message becomes the socket error, a 404 status the image error, and every
other error is rethrown unchanged — the catch block always throws. -/
def containerCatch (e : JsError) : JsError :=
  if jsIncludes e.message "connect ENOENT" then dockerSocketError
  else if e.statusCode = some 404 then dockerImageError
  else e

/-- Everything a container run produces: the outcome (an `Except.error` is an
error thrown across the action boundary), the creation options used, and
whether the timeout timer fired and killed the container. -/
structure ContainerRunOutput where
  outcome : Except JsError ContainerResult
  createOptions : DockerCreateOptions
  killAttempted : Bool

/-- The container executor `runPythonCodeSandboxed.run`. -/
def runPythonCodeSandboxed (jsonParse : String → Option Json)
    (creq : ContainerRequest) (cenv : ContainerEnv) (now : String) :
    ContainerRunOutput :=
  { outcome :=
      match containerTryBody jsonParse creq cenv now with
      | .ok r => .ok r
      | .error e => .error (containerCatch e)
    createOptions := containerCreateOptions creq.requirements creq.code
    killAttempted := containerStagesOk cenv && cenv.timedOut }

/-- The execution timeout of the container path,
`(timeout || 30) * 1000` milliseconds. -/
def containerExecutionTimeout (creq : ContainerRequest) : Int :=
  effectiveTimeoutMs creq.timeout

/-- The byte list of the text `print(1)` — a small concrete user program. -/
def pr1Bytes : List Byte := [112, 114, 105, 110, 116, 40, 49, 41]

/-- A `JSON.parse` oracle that never succeeds, for concrete runs whose stdout
is not JSON. -/
def noParse : String → Option Json := fun _ => none

/-- A concrete container request. -/
def creqPlain : ContainerRequest :=
  { code := pr1Bytes, requirements := none, timeout := some 1 }

/-- A concrete container environment in which every stage resolves, the
execution timer fires (the script outlived its timeout) and the killed
container's `wait()` resolves with status 137. -/
def cenvTimedOut : ContainerEnv :=
  { imageInspect := .ok ()
    imagePull := .ok ()
    createContainer := .ok ()
    attach := .ok ()
    startContainer := .ok ()
    stdoutCaptured := "partial"
    stderrCaptured := ""
    timedOut := true
    killOutcome := .ok ()
    waitOutcome := .ok 137 }

/-- A concrete host request with no requirements. -/
def reqExit1 : HostRequest :=
  { code := "import sys; sys.exit(1)"
    requirements := none
    timeout := some 5
    pythonVersion := "python3"
    captureOutput := true }

/-- The `execAsync` rejection of a script that exited with status 1. -/
def errExit1 : JsError :=
  { message := "Command failed"
    stdout := some ""
    stderr := some "boom"
    code := some 1 }

/-- A concrete host environment whose only failure is the script execution
itself (exit status 1). -/
def envExit1 : HostEnv :=
  { isDocker := false
    mkdirOutcome := .ok ()
    writeScriptOutcome := .ok ()
    pythonCheck := .ok ⟨"", ""⟩
    venvHelp := .ok ⟨"", ""⟩
    venvCreate := .ok ()
    venvCreateCopies := .ok ()
    platformWin32 := false
    pipCheck := .ok ⟨"", ""⟩
    pipInstall := .ok ⟨"", ""⟩
    scriptExec := .error errExit1
    cleanup := .ok () }

/-- A concrete host request that declares one dependency. -/
def reqWithReqs : HostRequest :=
  { code := "import requests; print(requests.__version__)"
    requirements := some "requests"
    timeout := some 5
    pythonVersion := "python3"
    captureOutput := true }

/-- A concrete variant-B environment in which the pip install fails (pip is
unavailable in the created venv) but the script itself runs fine. -/
def envPipMissingB : HostEnv :=
  { isDocker := false
    mkdirOutcome := .ok ()
    writeScriptOutcome := .ok ()
    pythonCheck := .ok ⟨"", ""⟩
    venvHelp := .ok ⟨"", ""⟩
    venvCreate := .ok ()
    venvCreateCopies := .ok ()
    platformWin32 := false
    pipCheck := .error { message := "spawn pip ENOENT" }
    pipInstall := .error { message := "spawn pip ENOENT" }
    scriptExec := .ok ⟨"ran anyway", ""⟩
    cleanup := .ok () }

/-- A concrete `JSON.parse` oracle: the text `4` decodes to the number 4,
everything else fails to parse. -/
def parseFour : String → Option Json :=
  fun s => if s = "4" then some (Json.num 4) else none

/-- A concrete host environment whose script prints `4`. -/
def envPrintsFour : HostEnv :=
  { isDocker := false
    mkdirOutcome := .ok ()
    writeScriptOutcome := .ok ()
    pythonCheck := .ok ⟨"", ""⟩
    venvHelp := .ok ⟨"", ""⟩
    venvCreate := .ok ()
    venvCreateCopies := .ok ()
    platformWin32 := false
    pipCheck := .ok ⟨"", ""⟩
    pipInstall := .ok ⟨"", ""⟩
    scriptExec := .ok ⟨"4\n", ""⟩
    cleanup := .ok () }

/-- A generic engine failure: an HTTP 500 from the Docker daemon, neither a
connectivity error nor an image-not-found error. -/
def errServer500 : JsError :=
  { message := "server error", statusCode := some 500 }

/-- A concrete container environment in which creating the container fails
with a generic engine error. -/
def cenvCreate500 : ContainerEnv :=
  { imageInspect := .ok ()
    imagePull := .ok ()
    createContainer := .error errServer500
    attach := .ok ()
    startContainer := .ok ()
    stdoutCaptured := ""
    stderrCaptured := ""
    timedOut := false
    killOutcome := .ok ()
    waitOutcome := .ok 0 }

/-- A concrete host request that disables output capture. -/
def reqNoCapture : HostRequest :=
  { code := "import sys; sys.exit(1)"
    requirements := none
    timeout := some 5
    pythonVersion := "python3"
    captureOutput := false }

/-! ## Helper lemmas -/

/-- String concatenation acts as list concatenation on the character data. -/
theorem strData_append : ∀ s t : String, (s ++ t).data = s.data ++ t.data
  | ⟨_⟩, ⟨_⟩ => rfl

/-- Strings with the same character data are equal. -/
theorem strExt {s t : String} (h : s.data = t.data) : s = t := by
  cases s
  cases t
  simp_all

/-- Decoding inverts encoding: base64 transport is reversible. -/
theorem b64_roundtrip : ∀ l : List Byte,
    b64DecodeSyms (b64EncodeBytes l) = some l
  | [] => rfl
  | [a] => by
    have ha := a.isLt
    simp only [b64EncodeBytes, b64DecodeSyms, Option.some.injEq,
      List.cons.injEq, and_true]
    apply Fin.ext
    simp only []
    omega
  | [a, b] => by
    have ha := a.isLt
    have hb := b.isLt
    simp only [b64EncodeBytes, b64DecodeSyms, Option.some.injEq,
      List.cons.injEq, and_true]
    constructor
    · apply Fin.ext
      simp only []
      omega
    · apply Fin.ext
      simp only []
      omega
  | a :: b :: c :: rest => by
    have ha := a.isLt
    have hb := b.isLt
    have hc := c.isLt
    have ih := b64_roundtrip rest
    simp only [b64EncodeBytes, b64DecodeSyms, ih, Option.some.injEq,
      List.cons.injEq]
    refine ⟨?_, ?_, ?_, trivial⟩
    · apply Fin.ext
      simp only []
      omega
    · apply Fin.ext
      simp only []
      omega
    · apply Fin.ext
      simp only []
      omega

/-- No base64 output character is a shell metacharacter. -/
theorem b64SymChar_safe (s : B64Sym) : b64SymChar s ∉ shellMetaChars := by
  cases s with
  | pad => decide
  | sextet v =>
    revert v
    decide

/-- Every character of a base64 text lies outside the shell
metacharacters. -/
theorem b64String_safe (syms : List B64Sym) :
    ∀ c ∈ (b64String syms).data, c ∉ shellMetaChars := by
  intro c hc
  simp only [b64String] at hc
  obtain ⟨s, _, rfl⟩ := List.mem_map.mp hc
  exact b64SymChar_safe s

/-- A resolved `Except _ Unit` is `.ok ()`. -/
theorem exOk_unit {x : Except JsError Unit} (h : exOk x = true) : x = .ok () := by
  cases x with
  | ok a =>
    cases a
    rfl
  | error e => simp [exOk] at h

/-- Unpacking `containerStagesOk`. -/
theorem containerStagesOk_spec {cenv : ContainerEnv}
    (h : containerStagesOk cenv = true) :
    (cenv.imageInspect = .ok () ∨
        (∃ e, cenv.imageInspect = .error e ∧ cenv.imagePull = .ok ())) ∧
      cenv.createContainer = .ok () ∧ cenv.attach = .ok () ∧
      cenv.startContainer = .ok () := by
  simp only [containerStagesOk, Bool.and_eq_true, Bool.or_eq_true] at h
  obtain ⟨⟨⟨himg, hcreate⟩, hattach⟩, hstart⟩ := h
  refine ⟨?_, exOk_unit hcreate, exOk_unit hattach, exOk_unit hstart⟩
  rcases himg with hi | hp
  · exact Or.inl (exOk_unit hi)
  · cases he : cenv.imageInspect with
    | ok a =>
      cases a
      exact Or.inl rfl
    | error e => exact Or.inr ⟨e, rfl, exOk_unit hp⟩

/-- When every stage resolves and `container.wait()` resolves — with any exit
status — the container action returns the success envelope built from the
captured output. -/
theorem runPythonCodeSandboxed_ok (jsonParse : String → Option Json)
    (creq : ContainerRequest) (cenv : ContainerEnv) (now : String) (s : Int)
    (hstages : containerStagesOk cenv = true)
    (hwait : cenv.waitOutcome = .ok s) :
    (runPythonCodeSandboxed jsonParse creq cenv now).outcome =
      .ok { success := true
            output := parseOutput jsonParse cenv.stdoutCaptured
            stdout := cenv.stdoutCaptured
            stderr := cenv.stderrCaptured
            executionTime := now } := by
  obtain ⟨himg, hcreate, hattach, hstart⟩ := containerStagesOk_spec hstages
  rcases himg with hi | ⟨e, hi, hp⟩
  · simp [runPythonCodeSandboxed, containerTryBody, hi, hcreate, hattach,
      hstart, hwait]
  · simp [runPythonCodeSandboxed, containerTryBody, hi, hp, hcreate, hattach,
      hstart, hwait]

/-- When the temp dir and script write succeed, the pip gate passes and the
script resolves, variant A returns the success envelope. -/
theorem runPythonCode_scriptOk (jsonParse : String → Option Json)
    (req : HostRequest) (env : HostEnv) (now : String) (out : ExecOut)
    (h1 : env.mkdirOutcome = .ok ()) (h2 : env.writeScriptOutcome = .ok ())
    (h3 : pipGateA req env = .ok ()) (h4 : env.scriptExec = .ok out) :
    (runPythonCode jsonParse req env now).result =
      successEnvelope jsonParse req out now := by
  simp [runPythonCode, hostBodyA, h1, h2, h3, h4]

/-- When the script execution rejects (and everything before it passed),
variant A returns the error envelope of the thrown error. -/
theorem runPythonCode_scriptError (jsonParse : String → Option Json)
    (req : HostRequest) (env : HostEnv) (now : String) (e : JsError)
    (h1 : env.mkdirOutcome = .ok ()) (h2 : env.writeScriptOutcome = .ok ())
    (h3 : pipGateA req env = .ok ()) (h4 : env.scriptExec = .error e) :
    (runPythonCode jsonParse req env now).result = errorEnvelope e now := by
  simp [runPythonCode, hostBodyA, h1, h2, h3, h4]

/-! ## Claim theorems -/

/-- C1: for every execution, on every exit path — success, failure, or a
throw in any step — the host executor's `finally` block attempts the
recursive deletion of the temp workspace (in both host variants), the
outcome of that cleanup never changes the returned result, and every
container the container executor creates is configured with
`AutoRemove: true` so it is removed when it exits. -/
theorem cleanup_always_runs_and_never_alters_result :
    ∀ (jsonParse : String → Option Json) (req : HostRequest) (env : HostEnv)
      (now : String) (o₁ o₂ : Except JsError Unit),
      HostOp.removeTempDirRecursive ∈ (runPythonCode jsonParse req env now).ops
      ∧ HostOp.removeTempDirRecursive ∈
          (runPythonCodeB jsonParse req env now).ops
      ∧ (runPythonCode jsonParse req { env with cleanup := o₁ } now).result
          = (runPythonCode jsonParse req { env with cleanup := o₂ } now).result
      ∧ (runPythonCodeB jsonParse req { env with cleanup := o₁ } now).result
          = (runPythonCodeB jsonParse req { env with cleanup := o₂ } now).result
      ∧ ∀ (creq : ContainerRequest) (cenv : ContainerEnv),
          (runPythonCodeSandboxed jsonParse creq cenv
              now).createOptions.HostConfig.AutoRemove = true := by
  intro jsonParse req env now o₁ o₂
  refine ⟨?_, ?_, rfl, rfl, fun _ _ => rfl⟩
  · simp [runPythonCode]
  · simp [runPythonCodeB]

/-- C2 counterexample: a container execution that hits the timeout — the
timer fires and kills the container — still returns `success: true` (with
the partial output), not the `success: false` the claim requires. -/
theorem timeout_not_failure_on_container_path :
    (runPythonCodeSandboxed noParse creqPlain cenvTimedOut
        "t0").killAttempted = true
      ∧ (runPythonCodeSandboxed noParse creqPlain cenvTimedOut "t0").outcome
          = .ok { success := true
                  output := OutputVal.text "partial"
                  stdout := "partial"
                  stderr := ""
                  executionTime := "t0" }
      ∧ cenvTimedOut.timedOut = true := by
  refine ⟨rfl, ?_, rfl⟩
  rfl

/-- C2 amended: on the host path, a rejected script execution — a timeout
kill or a non-zero exit both reject the `execAsync` promise — is a terminal
failure: `success: false`, the error message, the stdout/stderr captured up
to that point, and the exit code.  On the container path the timer does kill
the container, but the returned result still reports `success: true` with
the captured output; the exit status `container.wait()` resolves with is
never examined. -/
theorem execution_failures_host_fail_container_succeed :
    (∀ (jsonParse : String → Option Json) (req : HostRequest) (env : HostEnv)
        (now : String) (e : JsError),
      env.mkdirOutcome = .ok () → env.writeScriptOutcome = .ok () →
      pipGateA req env = .ok () → env.scriptExec = .error e →
      (runPythonCode jsonParse req env now).result.success = false
        ∧ (runPythonCode jsonParse req env now).result.error = some e.message
        ∧ (runPythonCode jsonParse req env now).result.stdout
            = some (e.stdout.getD "")
        ∧ (runPythonCode jsonParse req env now).result.stderr
            = some (e.stderr.getD "")
        ∧ (runPythonCode jsonParse req env now).result.code = e.code)
    ∧ ∀ (jsonParse : String → Option Json) (creq : ContainerRequest)
        (cenv : ContainerEnv) (now : String) (s : Int),
      containerStagesOk cenv = true → cenv.waitOutcome = .ok s →
      (runPythonCodeSandboxed jsonParse creq cenv now).outcome
          = .ok { success := true
                  output := parseOutput jsonParse cenv.stdoutCaptured
                  stdout := cenv.stdoutCaptured
                  stderr := cenv.stderrCaptured
                  executionTime := now }
        ∧ (cenv.timedOut = true →
            (runPythonCodeSandboxed jsonParse creq cenv now).killAttempted
              = true) := by
  constructor
  · intro jsonParse req env now e h1 h2 h3 h4
    rw [runPythonCode_scriptError jsonParse req env now e h1 h2 h3 h4]
    exact ⟨rfl, rfl, rfl, rfl, rfl⟩
  · intro jsonParse creq cenv now s hstages hwait
    refine ⟨runPythonCodeSandboxed_ok jsonParse creq cenv now s hstages hwait, ?_⟩
    intro ht
    simp [runPythonCodeSandboxed, hstages, ht]

/-- Witness for the amended C2 theorem at concrete inputs. -/
theorem execution_failures_witness :
    ((runPythonCode noParse reqExit1 envExit1 "t1").result.success = false
        ∧ (runPythonCode noParse reqExit1 envExit1 "t1").result.code = some 1)
      ∧ (runPythonCodeSandboxed noParse creqPlain cenvTimedOut "t0").outcome
          = .ok { success := true
                  output := parseOutput noParse cenvTimedOut.stdoutCaptured
                  stdout := cenvTimedOut.stdoutCaptured
                  stderr := cenvTimedOut.stderrCaptured
                  executionTime := "t0" } := by
  constructor
  · have h := (execution_failures_host_fail_container_succeed.1 noParse
      reqExit1 envExit1 "t1" errExit1 rfl rfl rfl rfl)
    exact ⟨h.1, h.2.2.2.2⟩
  · exact (execution_failures_host_fail_container_succeed.2 noParse creqPlain
      cenvTimedOut "t0" 137 rfl rfl).1

/-- The pip availability check's thrown error always names the missing pip,
whatever the selected interpreter version is. -/
theorem pipCheckThrown_names_pip (pv : String) :
    jsIncludes (pipCheckThrown pv).message "pip is not installed" = true := by
  show containsCharList ("pip is not installed").data
    (pipCheckThrown pv).message.data = true
  simp only [pipCheckThrown, strData_append]
  rfl

/-- A failed pip availability check surfaces as the descriptive
`pipMissingError`. -/
theorem pipStageA_checkError (req : HostRequest) (env : HostEnv)
    (ce : JsError) (h : env.pipCheck = .error ce) :
    pipStageA req env = .error pipMissingError := by
  simp only [pipStageA, h, pipCatchWrap, pipCheckThrown_names_pip,
    Bool.or_true, if_pos]

/-- C3 counterexample: in host variant B, with a non-empty `requirements`
and an unavailable pip, the install failure is only warned about: the user
script still runs and the result is `success: true` — the declared
dependencies are silently skipped, contradicting the claim. -/
theorem pip_missing_not_gating_in_variant_b :
    hasRequirements reqWithReqs.requirements = true
      ∧ exOk envPipMissingB.pipInstall = false
      ∧ (runPythonCodeB noParse reqWithReqs envPipMissingB
          "t0").result.success = true
      ∧ HostOp.runScript ∈
          (runPythonCodeB noParse reqWithReqs envPipMissingB "t0").ops := by
  refine ⟨by decide, rfl, rfl, by decide⟩

/-- C3 amended: in host variant A, a failing pip availability check with
declared requirements is terminal — `success: false`, the error names the
missing pip capability, and the script is never executed; in host variant B,
a failing `pip install` is only logged and the run continues, executing the
script. -/
theorem dependency_gating_split_by_variant :
    (∀ (jsonParse : String → Option Json) (req : HostRequest) (env : HostEnv)
        (now : String) (ce : JsError),
      hasRequirements req.requirements = true →
      env.mkdirOutcome = .ok () → env.writeScriptOutcome = .ok () →
      env.pipCheck = .error ce →
      (runPythonCode jsonParse req env now).result.success = false
        ∧ (runPythonCode jsonParse req env now).result.error
            = some pipMissingError.message
        ∧ jsIncludes pipMissingError.message "pip" = true
        ∧ HostOp.runScript ∉ (runPythonCode jsonParse req env now).ops)
    ∧ ∀ (jsonParse : String → Option Json) (req : HostRequest) (env : HostEnv)
        (now : String) (pe : JsError) (out : ExecOut),
      hasRequirements req.requirements = true →
      env.mkdirOutcome = .ok () → env.writeScriptOutcome = .ok () →
      env.venvCreate = .ok () → env.pipInstall = .error pe →
      env.scriptExec = .ok out →
      (runPythonCodeB jsonParse req env now).result.success = true
        ∧ HostOp.runScript ∈ (runPythonCodeB jsonParse req env now).ops := by
  constructor
  · intro jsonParse req env now ce hreq h1 h2 hce
    have hstage := pipStageA_checkError req env ce hce
    simp [runPythonCode, hostBodyA, pipGateA, pipOpsA, h1, h2, hreq, hstage,
      hce, errorEnvelope]
    decide
  · intro jsonParse req env now pe out hreq h1 h2 hv hpe hout
    simp [runPythonCodeB, hostBodyB, h1, h2, hv, hreq, hout, successEnvelope]

/-- Witness for the amended C3 theorem at concrete inputs. -/
theorem dependency_gating_split_witness :
    ((runPythonCode noParse reqWithReqs envPipMissingB "t0").result.success
          = false
        ∧ HostOp.runScript ∉
            (runPythonCode noParse reqWithReqs envPipMissingB "t0").ops)
      ∧ (runPythonCodeB noParse reqWithReqs envPipMissingB
            "t0").result.success = true := by
  constructor
  · have h := (dependency_gating_split_by_variant.1 noParse reqWithReqs
      envPipMissingB "t0" { message := "spawn pip ENOENT" } (by decide)
      rfl rfl rfl)
    exact ⟨h.1, h.2.2.2⟩
  · exact (dependency_gating_split_by_variant.2 noParse reqWithReqs
      envPipMissingB "t0" { message := "spawn pip ENOENT" } ⟨"ran anyway", ""⟩
      (by decide) rfl rfl rfl rfl rfl).1

/-- C4: on both paths, when the trimmed captured stdout is valid JSON (the
parse succeeds), the result's `output` is the decoded value; when the parse
fails, `output` is the trimmed stdout text verbatim; and in either case the
result is a success — a decode failure never fails the run. -/
theorem output_decode_fallback :
    (∀ (jsonParse : String → Option Json) (req : HostRequest) (env : HostEnv)
        (now : String) (out : ExecOut),
      env.mkdirOutcome = .ok () → env.writeScriptOutcome = .ok () →
      pipGateA req env = .ok () → env.scriptExec = .ok out →
      (runPythonCode jsonParse req env now).result.success = true
        ∧ (∀ j, jsonParse (jsTrim out.stdout) = some j →
            (runPythonCode jsonParse req env now).result.output
              = some (OutputVal.json j))
        ∧ (jsonParse (jsTrim out.stdout) = none →
            (runPythonCode jsonParse req env now).result.output
              = some (OutputVal.text (jsTrim out.stdout))))
    ∧ ∀ (jsonParse : String → Option Json) (creq : ContainerRequest)
        (cenv : ContainerEnv) (now : String) (s : Int),
      containerStagesOk cenv = true → cenv.waitOutcome = .ok s →
      ∃ r, (runPythonCodeSandboxed jsonParse creq cenv now).outcome = .ok r
        ∧ r.success = true
        ∧ (∀ j, jsonParse (jsTrim cenv.stdoutCaptured) = some j →
            r.output = OutputVal.json j)
        ∧ (jsonParse (jsTrim cenv.stdoutCaptured) = none →
            r.output = OutputVal.text (jsTrim cenv.stdoutCaptured)) := by
  constructor
  · intro jsonParse req env now out h1 h2 h3 h4
    rw [runPythonCode_scriptOk jsonParse req env now out h1 h2 h3 h4]
    refine ⟨rfl, ?_, ?_⟩
    · intro j hj
      simp [successEnvelope, parseOutput, hj]
    · intro hj
      simp [successEnvelope, parseOutput, hj]
  · intro jsonParse creq cenv now s hstages hwait
    refine ⟨_, runPythonCodeSandboxed_ok jsonParse creq cenv now s hstages
      hwait, rfl, ?_, ?_⟩
    · intro j hj
      simp [parseOutput, hj]
    · intro hj
      simp [parseOutput, hj]

/-- Witness for the C4 theorem at concrete inputs: stdout `4\n` decodes to
the JSON number 4 under the host path, and the same stdout degrades to the
text `4` under a parse oracle that fails. -/
theorem output_decode_fallback_witness :
    ((runPythonCode parseFour reqExit1 envPrintsFour "t0").result.success
          = true
        ∧ (runPythonCode parseFour reqExit1 envPrintsFour "t0").result.output
            = some (OutputVal.json (Json.num 4)))
      ∧ ∃ r, (runPythonCodeSandboxed noParse creqPlain cenvTimedOut
            "t0").outcome = .ok r
          ∧ r.output = OutputVal.text (jsTrim cenvTimedOut.stdoutCaptured) := by
  constructor
  · have h := (output_decode_fallback.1 parseFour reqExit1 envPrintsFour "t0"
      ⟨"4\n", ""⟩ rfl rfl rfl rfl)
    exact ⟨h.1, h.2.1 (Json.num 4) rfl⟩
  · obtain ⟨r, hr, _, _, htext⟩ := (output_decode_fallback.2 noParse creqPlain
      cenvTimedOut "t0" 137 rfl rfl)
    exact ⟨r, hr, htext rfl⟩

/-- C5: in the container path the user code reaches the generated shell
command only through its base64 encoding: decoding the transported text
recovers the code bytes exactly (so the encoding is reversible and
injective), every character of the transported text lies outside the shell
metacharacters (so the code's own quotes cannot alter the command
structure), and the `sh -c` command depends on the code only through that
encoding. -/
theorem code_transport_is_reversible_base64 :
    ∀ (code : List Byte) (requirements : Option String),
      b64DecodeSyms (b64EncodeBytes code) = some code
      ∧ (∀ c ∈ (encodedCode code).data, c ∉ shellMetaChars)
      ∧ (∀ code2 : List Byte, encodedCode code2 = encodedCode code →
          containerCmd requirements code2 = containerCmd requirements code)
      ∧ (∀ code2 : List Byte, b64EncodeBytes code2 = b64EncodeBytes code →
          code2 = code) := by
  intro code requirements
  refine ⟨b64_roundtrip code, ?_, ?_, ?_⟩
  · intro c hc
    exact b64String_safe (b64EncodeBytes code) c hc
  · intro code2 h
    simp [containerCmd, h]
  · intro code2 h
    have h2 := b64_roundtrip code2
    rw [h, b64_roundtrip code] at h2
    exact (Option.some.injEq _ _ ▸ h2).symm

/-- Witness for the C5 theorem at a concrete input: the bytes of
`print(1)` encode to `cHJpbnQoMSk=`, which decodes back, and its first
character is not a shell metacharacter. -/
theorem code_transport_witness :
    b64DecodeSyms (b64EncodeBytes pr1Bytes) = some pr1Bytes
      ∧ encodedCode pr1Bytes = "cHJpbnQoMSk="
      ∧ 'c' ∉ shellMetaChars := by
  refine ⟨(code_transport_is_reversible_base64 pr1Bytes none).1, by decide, ?_⟩
  exact (code_transport_is_reversible_base64 pr1Bytes none).2.1 'c' (by decide)

set_option maxRecDepth 100000 in
/-- C6: in the container path, the generated command — whose rendering is
exactly the `sh -c` script of the source — runs the user code only inside
the `su - pyuser -c` block, i.e. under the unprivileged identity; the only
steps executing as the container's root are the user provisioning, the pip
bootstrap, and the transient dependency install that precede the privilege
drop. -/
theorem user_code_runs_only_as_pyuser :
    ∀ (requirements : Option String) (code : List Byte),
      (∀ ra st, (ra, st) ∈ containerScriptSteps requirements code →
        (∃ enc, st = ContainerStep.runUserCode enc) → ra = RunAs.pyuser)
      ∧ (∀ ra st, (ra, st) ∈ containerScriptSteps requirements code →
          ra = RunAs.root →
          st = ContainerStep.useraddPyuser ∨ st = ContainerStep.ensurePip ∨
            st = ContainerStep.pipInstallReqs
              (requirementsList (requirements.getD "")))
      ∧ containerCmd requirements code =
          ["sh", "-c", renderScript (containerScriptSteps requirements code)]
        := by
  intro requirements code
  by_cases h : hasRequirements requirements = true
  · refine ⟨?_, ?_, ?_⟩
    · rintro ra st hmem ⟨enc, rfl⟩
      simp [containerScriptSteps, h] at hmem
      exact hmem.1
    · rintro ra st hmem rfl
      simp [containerScriptSteps, h] at hmem
      tauto
    · simp only [renderScript, containerScriptSteps, containerCmd, h, if_pos,
        List.filter, List.map, jsJoin, renderRootStep, renderStep,
        setupScriptWithReqs, List.cons.injEq, and_true, true_and]
      apply strExt
      simp only [strData_append, List.append_assoc]
      rfl
  · simp only [Bool.not_eq_true] at h
    refine ⟨?_, ?_, ?_⟩
    · rintro ra st hmem ⟨enc, rfl⟩
      simp [containerScriptSteps, h] at hmem
      exact hmem.1
    · rintro ra st hmem rfl
      simp [containerScriptSteps, h] at hmem
      tauto
    · simp only [renderScript, containerScriptSteps, containerCmd, h,
        Bool.false_eq_true, if_false, List.filter, List.map, jsJoin,
        renderRootStep, renderStep, setupScriptNoReqs, List.cons.injEq,
        and_true, true_and]
      apply strExt
      simp only [strData_append, List.append_assoc]
      rfl

/-- Witness for the C6 theorem at concrete inputs: the run-user-code step of
a concrete command is tagged `pyuser`, and the rendered command of the
concrete no-requirements request is the source's script. -/
theorem user_code_runs_only_as_pyuser_witness :
    RunAs.pyuser = RunAs.pyuser
      ∧ containerCmd none pr1Bytes =
          ["sh", "-c", renderScript (containerScriptSteps none pr1Bytes)] := by
  constructor
  · exact (user_code_runs_only_as_pyuser none pr1Bytes).1 RunAs.pyuser
      (ContainerStep.runUserCode (encodedCode pr1Bytes)) (by decide)
      ⟨encodedCode pr1Bytes, rfl⟩
  · exact (user_code_runs_only_as_pyuser none pr1Bytes).2.2

/-- C7 counterexample: a generic container-engine failure — neither a
connectivity error nor an image-resolution error — is rethrown across the
action boundary instead of being returned as a `success: false` result, so
the thrown class is not limited to connectivity/image errors. -/
theorem generic_container_error_is_thrown :
    (runPythonCodeSandboxed noParse creqPlain cenvCreate500 "t0").outcome
        = .error errServer500
      ∧ jsIncludes errServer500.message "connect ENOENT" = false
      ∧ errServer500.statusCode ≠ some 404 := by
  refine ⟨rfl, by decide, by decide⟩

/-- C7 amended: host-path failures are returned as data — any thrown error
becomes a `success: false` envelope carrying the message — and the container
path returns no failure as data at all: every returned result has
`success: true`, and every internal error propagates as a thrown error,
re-labelled to the socket message on `connect ENOENT`, to the image message
on a 404 status, and rethrown unchanged otherwise. -/
theorem failures_as_data_except_container_throws :
    (∀ (jsonParse : String → Option Json) (req : HostRequest) (env : HostEnv)
        (now : String) (e : JsError) (ops : List HostOp),
      hostBodyA req env = (.error e, ops) →
      (runPythonCode jsonParse req env now).result = errorEnvelope e now
        ∧ (runPythonCode jsonParse req env now).result.success = false
        ∧ (runPythonCode jsonParse req env now).result.error = some e.message)
    ∧ (∀ (jsonParse : String → Option Json) (creq : ContainerRequest)
        (cenv : ContainerEnv) (now : String) (r : ContainerResult),
      (runPythonCodeSandboxed jsonParse creq cenv now).outcome = .ok r →
      r.success = true)
    ∧ (∀ (jsonParse : String → Option Json) (creq : ContainerRequest)
        (cenv : ContainerEnv) (now : String) (e : JsError),
      containerTryBody jsonParse creq cenv now = .error e →
      (runPythonCodeSandboxed jsonParse creq cenv now).outcome
        = .error (containerCatch e))
    ∧ (∀ e : JsError, jsIncludes e.message "connect ENOENT" = true →
        containerCatch e = dockerSocketError)
    ∧ (∀ e : JsError, jsIncludes e.message "connect ENOENT" = false →
        e.statusCode = some 404 → containerCatch e = dockerImageError)
    ∧ ∀ e : JsError, jsIncludes e.message "connect ENOENT" = false →
        e.statusCode ≠ some 404 → containerCatch e = e := by
  refine ⟨?_, ?_, ?_, ?_, ?_, ?_⟩
  · intro jsonParse req env now e ops hbody
    have : (runPythonCode jsonParse req env now).result
        = errorEnvelope e now := by
      simp [runPythonCode, hbody]
    exact ⟨this, by rw [this]; rfl, by rw [this]; rfl⟩
  · intro jsonParse creq cenv now r hok
    simp only [runPythonCodeSandboxed] at hok
    cases hbody : containerTryBody jsonParse creq cenv now with
    | ok r2 =>
      rw [hbody] at hok
      cases hok
      revert hbody
      simp only [containerTryBody]
      cases cenv.imageInspect <;> cases cenv.imagePull <;>
        cases cenv.createContainer <;> cases cenv.attach <;>
        cases cenv.startContainer <;> cases cenv.waitOutcome <;>
        intro hbody <;> simp_all <;> simp [← hbody]
    | error e =>
      rw [hbody] at hok
      cases hok
  · intro jsonParse creq cenv now e hbody
    simp [runPythonCodeSandboxed, hbody]
  · intro e he
    simp [containerCatch, he]
  · intro e he h404
    simp [containerCatch, he, h404]
  · intro e he h404
    simp [containerCatch, he, h404]

/-- Witness for the amended C7 theorem at concrete inputs. -/
theorem failures_as_data_witness :
    ((runPythonCode noParse reqExit1 envExit1 "t1").result
          = errorEnvelope errExit1 "t1"
        ∧ (runPythonCode noParse reqExit1 envExit1 "t1").result.success
            = false)
      ∧ (runPythonCodeSandboxed noParse creqPlain cenvCreate500 "t0").outcome
          = .error (containerCatch errServer500)
      ∧ containerCatch errServer500 = errServer500 := by
  refine ⟨?_, ?_, ?_⟩
  · have h := failures_as_data_except_container_throws.1 noParse reqExit1
      envExit1 "t1" errExit1
      [HostOp.mkdirTemp, HostOp.writeScript, HostOp.runScript] rfl
    exact ⟨h.1, h.2.1⟩
  · exact failures_as_data_except_container_throws.2.2.1 noParse creqPlain
      cenvCreate500 "t0" errServer500 rfl
  · exact failures_as_data_except_container_throws.2.2.2.2.2 errServer500
      (by decide) (by decide)

/-- C8 counterexample: a negative `timeoutSeconds` of `-5` is not a positive
integer, yet the executors do not substitute the 30-second default — the
execution bound becomes `-5000` milliseconds, because `(timeout || 30)` only
replaces falsy values (absent or zero). -/
theorem negative_timeout_not_defaulted :
    effectiveTimeoutMs (some (-5)) = -5000
      ∧ ((-5 : Int) ≤ 0)
      ∧ effectiveTimeoutMs (some (-5)) ≠ 30 * 1000 := by
  refine ⟨by decide, by decide, by decide⟩

/-- C8 amended: both executors bound execution by `(timeout || 30) * 1000`
milliseconds: the 30-second default is substituted exactly when
`timeoutSeconds` is absent or zero (the falsy cases); any other value —
positive, but also negative — is used as given.  The request is never
rejected over the timeout field. -/
theorem timeout_default_on_falsy_only :
    effectiveTimeoutMs none = 30 * 1000
      ∧ effectiveTimeoutMs (some 0) = 30 * 1000
      ∧ (∀ v : Int, v ≠ 0 → effectiveTimeoutMs (some v) = v * 1000)
      ∧ (∀ req : HostRequest,
          (execOptionsA req).timeoutMs = effectiveTimeoutMs req.timeout)
      ∧ ∀ creq : ContainerRequest,
          containerExecutionTimeout creq = effectiveTimeoutMs creq.timeout := by
  refine ⟨rfl, rfl, ?_, fun _ => rfl, fun _ => rfl⟩
  intro v hv
  simp [effectiveTimeoutMs, jsOrDefault, hv]

/-- Witness for the amended C8 theorem at a concrete input. -/
theorem timeout_default_witness :
    (5 : Int) ≠ 0 ∧ effectiveTimeoutMs (some 5) = 5 * 1000 := by
  exact ⟨by decide, timeout_default_on_falsy_only.2.2.1 5 (by decide)⟩

/-- Inversion: a container run that returns a result at all returns the
success envelope built from the captured streams. -/
theorem containerTryBody_ok_inv (jsonParse : String → Option Json)
    (creq : ContainerRequest) (cenv : ContainerEnv) (now : String)
    (r : ContainerResult)
    (h : containerTryBody jsonParse creq cenv now = .ok r) :
    r = { success := true
          output := parseOutput jsonParse cenv.stdoutCaptured
          stdout := cenv.stdoutCaptured
          stderr := cenv.stderrCaptured
          executionTime := now } := by
  revert h
  simp only [containerTryBody]
  cases cenv.imageInspect <;> cases cenv.imagePull <;>
    cases cenv.createContainer <;> cases cenv.attach <;>
    cases cenv.startContainer <;> cases cenv.waitOutcome <;>
    intro h <;> (cases h <;> rfl)

/-- C9 counterexample: on the host path's failure exit, the result carries
`stdout`/`stderr` fields even though `captureOutput` is false — the
`captureOutput` flag only governs the success envelope, so the fields are
not present "exactly when the flag is set" on every exit path. -/
theorem stdout_present_on_failure_despite_flag :
    reqNoCapture.captureOutput = false
      ∧ (runPythonCode noParse reqNoCapture envExit1 "t0").result.stdout
          = some ""
      ∧ (runPythonCode noParse reqNoCapture envExit1 "t0").result.stderr
          = some "boom"
      ∧ (runPythonCode noParse reqNoCapture envExit1 "t0").result.stdout
          ≠ none := by
  refine ⟨rfl, rfl, rfl, by decide⟩

/-- C9 amended: on the host path's success envelope, `stdout`/`stderr` are
present exactly when `captureOutput` is set; on the host path's failure
envelope they are always present (as `error.stdout || ''`); on the container
path they are always present, taken from the captured streams. -/
theorem stdout_fields_by_path :
    (∀ (jsonParse : String → Option Json) (req : HostRequest) (env : HostEnv)
        (now : String) (out : ExecOut),
      env.mkdirOutcome = .ok () → env.writeScriptOutcome = .ok () →
      pipGateA req env = .ok () → env.scriptExec = .ok out →
      (runPythonCode jsonParse req env now).result.stdout
          = (if req.captureOutput then some out.stdout else none)
        ∧ (runPythonCode jsonParse req env now).result.stderr
            = (if req.captureOutput then some out.stderr else none))
    ∧ (∀ (jsonParse : String → Option Json) (req : HostRequest)
        (env : HostEnv) (now : String) (e : JsError) (ops : List HostOp),
      hostBodyA req env = (.error e, ops) →
      (runPythonCode jsonParse req env now).result.stdout
          = some (e.stdout.getD "")
        ∧ (runPythonCode jsonParse req env now).result.stderr
            = some (e.stderr.getD ""))
    ∧ ∀ (jsonParse : String → Option Json) (creq : ContainerRequest)
        (cenv : ContainerEnv) (now : String) (r : ContainerResult),
      (runPythonCodeSandboxed jsonParse creq cenv now).outcome = .ok r →
      r.stdout = cenv.stdoutCaptured ∧ r.stderr = cenv.stderrCaptured := by
  refine ⟨?_, ?_, ?_⟩
  · intro jsonParse req env now out h1 h2 h3 h4
    rw [runPythonCode_scriptOk jsonParse req env now out h1 h2 h3 h4]
    exact ⟨rfl, rfl⟩
  · intro jsonParse req env now e ops hbody
    have : (runPythonCode jsonParse req env now).result
        = errorEnvelope e now := by
      simp [runPythonCode, hbody]
    rw [this]
    exact ⟨rfl, rfl⟩
  · intro jsonParse creq cenv now r hok
    simp only [runPythonCodeSandboxed] at hok
    cases hbody : containerTryBody jsonParse creq cenv now with
    | ok r2 =>
      rw [hbody] at hok
      have h2 := containerTryBody_ok_inv jsonParse creq cenv now r2 hbody
      cases hok
      rw [h2]
      exact ⟨rfl, rfl⟩
    | error e =>
      rw [hbody] at hok
      cases hok

/-- Witness for the amended C9 theorem at concrete inputs. -/
theorem stdout_fields_by_path_witness :
    ((runPythonCode noParse reqExit1 envPrintsFour "t0").result.stdout
          = some "4\n"
        ∧ (runPythonCode noParse reqNoCapture envExit1 "t0").result.stdout
            = some "")
      ∧ ∃ r, (runPythonCodeSandboxed noParse creqPlain cenvTimedOut
            "t0").outcome = .ok r ∧ r.stdout = "partial" := by
  refine ⟨⟨?_, ?_⟩, ?_⟩
  · exact ((stdout_fields_by_path.1 noParse reqExit1 envPrintsFour "t0"
      ⟨"4\n", ""⟩ rfl rfl rfl rfl).1.trans (by decide))
  · exact (stdout_fields_by_path.2.1 noParse reqNoCapture envExit1 "t0"
      errExit1 [HostOp.mkdirTemp, HostOp.writeScript, HostOp.runScript]
      rfl).1
  · refine ⟨_, rfl, ?_⟩
    exact (stdout_fields_by_path.2.2 noParse creqPlain cenvTimedOut "t0"
      _ rfl).1

/-- C10 counterexample: the requirement lines are not individually trimmed —
for the input `a\n  b` the transformed list is `a   b` (the second line
keeps its leading spaces), not the `a b` that per-line trimming would
produce; only blank lines are dropped. -/
theorem requirement_lines_not_trimmed :
    requirementsList "a\n  b" = "a   b"
      ∧ "a   b" ≠ "a b" := by
  exact ⟨by decide, by decide⟩

set_option maxRecDepth 100000 in
/-- C10 amended: the requirements text is trimmed as a whole, split into
lines, blank lines are dropped (lines are not individually trimmed), and the
lines are joined with single spaces and spliced verbatim — unencoded and
unquoted — into the `sh -c` script, so the command text varies directly with
the raw requirements content and shell metacharacters like `$(`/`)` pass
through into the root-executed part of the script unchanged. -/
theorem requirements_spliced_verbatim :
    (∀ (reqs : String) (code : List Byte),
      hasRequirements (some reqs) = true →
      containerCmd (some reqs) code =
        ["sh", "-c",
          setupScriptWithReqs (requirementsList reqs) (encodedCode code)])
    ∧ (∀ r1 r2 e : String,
        setupScriptWithReqs r1 e = setupScriptWithReqs r2 e → r1 = r2)
    ∧ requirementsList "$(touch /pwned)" = "$(touch /pwned)"
    ∧ jsIncludes
        (setupScriptWithReqs (requirementsList "$(touch /pwned)")
          (encodedCode pr1Bytes))
        "$(touch /pwned)" = true := by
  refine ⟨?_, ?_, by decide, by decide⟩
  · intro reqs code h
    simp [containerCmd, h]
  · intro r1 r2 e h
    have hd := congrArg String.data h
    simp only [setupScriptWithReqs, strData_append, List.append_assoc] at hd
    have hd2 := List.append_cancel_left hd
    apply strExt
    exact List.append_cancel_right hd2

set_option maxRecDepth 100000 in
/-- Witness for the amended C10 theorem at concrete inputs. -/
theorem requirements_spliced_witness :
    containerCmd (some "requests") pr1Bytes =
        ["sh", "-c",
          setupScriptWithReqs (requirementsList "requests")
            (encodedCode pr1Bytes)]
      ∧ requirementsList "requests" = "requests" := by
  exact ⟨requirements_spliced_verbatim.1 "requests" pr1Bytes (by decide),
    by decide⟩
